import Mathlib

/-! Shallow embedding of the image comparison engine of this repository
(`src/unnamed/part_000`, the `ImageComparison` class) together with the
external collaborators it calls:

* the filesystem (`readFileSync` / `writeFileSync`) is modelled as an explicit
  association list of files plus a set of paths on which a write throws;
* the `sharp` library (metadata probe, resize-to-raw, PNG encode) and base64
  encoding are modelled as an explicit record of functions `SharpLib`, since
  their internals are not part of this repository;
* the `pixelmatch` dependency (v5 algorithm) is embedded concretely, because
  several spec properties (count bounds, threshold monotonicity, identical
  image fast path) are decided by its algorithm; JS numbers are modelled by
  exact rationals and byte stores by truncation modulo 256;
* JS `Date` is modelled by passing the timestamp string explicitly.

Machine arithmetic: pixel bytes are naturals, JS floating point numbers are
modelled as `ℚ` (in particular `x / 0 = 0` stands in for the JS non-throwing
division).  All definitions are executable.
-/

namespace ImageCompare

/-- A raw byte buffer (JS `Buffer` / `Uint8Array`), one natural per byte. -/
abbrev Buffer := List ℕ

/-- Result of `sharp(buffer).metadata()`: width/height may be absent. -/
structure SharpMeta where
  width : Option ℕ
  height : Option ℕ
deriving DecidableEq

/-- The `sharp` library and base64 encoding as an abstract collaborator:
`metadata` probes a buffer, `resizeRaw b w h` models
`sharp(b).resize(w, h).raw().toBuffer()`, `encodePng raw w h` models
`sharp(raw, { raw: { width: w, height: h, channels: 4 } }).png().toBuffer()`,
and `toBase64` models `Buffer.prototype.toString("base64")`. -/
structure SharpLib where
  metadata : Buffer → Except String SharpMeta
  resizeRaw : Buffer → ℕ → ℕ → Except String Buffer
  encodePng : Buffer → ℕ → ℕ → Except String Buffer
  toBase64 : Buffer → String

/-- The filesystem state: stored files, plus the paths on which
`writeFileSync` throws. -/
structure FsState where
  files : List (String × Buffer)
  writeFails : List String
deriving DecidableEq

/-- Model of `readFileSync`: returns the stored bytes, throws `ENOENT` otherwise. -/
def readFile (fs : FsState) (p : String) : Except String Buffer :=
  match fs.files.lookup p with
  | some b => Except.ok b
  | none => Except.error ("ENOENT: no such file or directory, open " ++ p)

/-- Replace (or create) the file stored at path `p`. -/
def setFile (files : List (String × Buffer)) (p : String) (b : Buffer) :
    List (String × Buffer) :=
  files.filter (fun e => !(e.1 == p)) ++ [(p, b)]

/-- Model of `writeFileSync`: atomically stores the bytes, or throws leaving the
filesystem unchanged. -/
def writeFile (fs : FsState) (p : String) (b : Buffer) : Except String FsState :=
  if p ∈ fs.writeFails then
    Except.error ("EACCES: permission denied, open " ++ p)
  else
    Except.ok ⟨setFile fs.files p b, fs.writeFails⟩

/-- A request before validation (`threshold` may be omitted), the input of the
zod schema `ImageComparisonSchema` (src/unnamed/part_000 lines 7-18). -/
structure RawComparisonParams where
  image1Path : String
  image2Path : String
  threshold : Option ℚ
  outputPath : Option String
deriving DecidableEq

/-- A validated request, the type `z.infer<typeof ImageComparisonSchema>`. -/
structure ImageComparisonParams where
  image1Path : String
  image2Path : String
  threshold : ℚ
  outputPath : Option String
deriving DecidableEq

/-- Parsing a request against `ImageComparisonSchema`
(src/unnamed/part_000 lines 7-18): `threshold` is
`z.number().min(0).max(1).optional().default(0.1)`, so an omitted threshold
becomes `0.1` and an out-of-range threshold is rejected. -/
def parseParams (raw : RawComparisonParams) : Except String ImageComparisonParams :=
  match raw.threshold with
  | none =>
    Except.ok ⟨raw.image1Path, raw.image2Path, (0.1 : ℚ), raw.outputPath⟩
  | some t =>
    if t < 0 then Except.error "Number must be greater than or equal to 0"
    else if 1 < t then Except.error "Number must be less than or equal to 1"
    else Except.ok ⟨raw.image1Path, raw.image2Path, t, raw.outputPath⟩

/-- Dimensions `width × height` of one input image as recorded in result metadata. -/
structure ImageSize where
  width : ℕ
  height : ℕ
deriving DecidableEq

/-- Metadata field `metadata` of a `ComparisonResult` (src/unnamed/part_000
lines 28-33). -/
structure ResultMetadata where
  image1Size : ImageSize
  image2Size : ImageSize
  threshold : ℚ
  comparedAt : String
deriving DecidableEq

/-- The `ComparisonResult` interface (src/unnamed/part_000 lines 23-34). -/
structure ComparisonResult where
  diffPixels : ℕ
  totalPixels : ℕ
  diffPercentage : ℚ
  diffImageData : String
  metadata : ResultMetadata
deriving DecidableEq

/-! Section: The pixelmatch dependency (v5 algorithm), exact rational arithmetic -/

/-- pixelmatch `blend(c, a)`: blend `c` onto white with opacity `a`. -/
def blend (c a : ℚ) : ℚ := 255 + (c - 255) * a

/-- pixelmatch `rgb2y`. -/
def rgb2y (r g b : ℚ) : ℚ := r * 0.29889531 + g * 0.58662247 + b * 0.11448223

/-- pixelmatch `rgb2i`. -/
def rgb2i (r g b : ℚ) : ℚ := r * 0.59597799 - g * 0.27417610 - b * 0.32180189

/-- pixelmatch `rgb2q`. -/
def rgb2q (r g b : ℚ) : ℚ := r * 0.21147017 - g * 0.52261711 + b * 0.31114694

/-- pixelmatch `colorDelta(img1, img2, k, m, yOnly)`: squared YIQ colour
distance of the pixels at byte offsets `k` and `m`, negative if the second
pixel is darker; with `yOnly` only the brightness difference. -/
def colorDelta (img1 img2 : Buffer) (k m : ℕ) (yOnly : Bool) : ℚ :=
  let r1 : ℚ := img1.getD k 0
  let g1 : ℚ := img1.getD (k + 1) 0
  let b1 : ℚ := img1.getD (k + 2) 0
  let a1 : ℚ := img1.getD (k + 3) 0
  let r2 : ℚ := img2.getD m 0
  let g2 : ℚ := img2.getD (m + 1) 0
  let b2 : ℚ := img2.getD (m + 2) 0
  let a2 : ℚ := img2.getD (m + 3) 0
  if a1 = a2 ∧ r1 = r2 ∧ g1 = g2 ∧ b1 = b2 then 0
  else
    let r1b := if a1 < 255 then blend r1 (a1 / 255) else r1
    let g1b := if a1 < 255 then blend g1 (a1 / 255) else g1
    let b1b := if a1 < 255 then blend b1 (a1 / 255) else b1
    let r2b := if a2 < 255 then blend r2 (a2 / 255) else r2
    let g2b := if a2 < 255 then blend g2 (a2 / 255) else g2
    let b2b := if a2 < 255 then blend b2 (a2 / 255) else b2
    let y1 := rgb2y r1b g1b b1b
    let y2 := rgb2y r2b g2b b2b
    let y := y1 - y2
    if yOnly then y
    else
      let i := rgb2i r1b g1b b1b - rgb2i r2b g2b b2b
      let q := rgb2q r1b g1b b1b - rgb2q r2b g2b b2b
      let delta := 0.5053 * y * y + 0.299 * i * i + 0.1957 * q * q
      if y1 > y2 then -delta else delta

/-- The 8 neighbours of `(x1, y1)` in the rectangle `[x0, x2] × [y0, y2]`,
in pixelmatch's scan order (`x` outer, `y` inner, centre skipped). -/
def neighbors (x0 x2 y0 y2 x1 y1 : ℕ) : List (ℕ × ℕ) :=
  (List.range' x0 (x2 + 1 - x0)).flatMap fun x =>
    (List.range' y0 (y2 + 1 - y0)).filterMap fun y =>
      if x = x1 ∧ y = y1 then none else some (x, y)

/-- pixelmatch `hasManySiblings`: whether the pixel at `(x1, y1)` has more
than two neighbours with exactly equal RGBA bytes (edge pixels start at one). -/
def hasManySiblings (img : Buffer) (x1 y1 w h : ℕ) : Bool :=
  let x0 := x1 - 1
  let y0 := y1 - 1
  let x2 := min (x1 + 1) (w - 1)
  let y2 := min (y1 + 1) (h - 1)
  let pos := (y1 * w + x1) * 4
  let zeroesInit : ℕ := if x1 = x0 ∨ x1 = x2 ∨ y1 = y0 ∨ y1 = y2 then 1 else 0
  let total := (neighbors x0 x2 y0 y2 x1 y1).foldl
    (fun z xy =>
      let pos2 := (xy.2 * w + xy.1) * 4
      if img.getD pos 0 = img.getD pos2 0 ∧
          img.getD (pos + 1) 0 = img.getD (pos2 + 1) 0 ∧
          img.getD (pos + 2) 0 = img.getD (pos2 + 2) 0 ∧
          img.getD (pos + 3) 0 = img.getD (pos2 + 3) 0
        then z + 1 else z)
    zeroesInit
  total > 2

/-- Accumulator of pixelmatch `antialiased`'s neighbour scan: count of equal
neighbours, darkest and brightest brightness delta and their positions. -/
structure AAState where
  zeroes : ℕ
  dmin : ℚ
  dmax : ℚ
  minX : ℕ
  minY : ℕ
  maxX : ℕ
  maxY : ℕ

/-- The neighbour scan of pixelmatch `antialiased`; `none` models the early
`return false` on finding a third equal neighbour. -/
def aaScan (img : Buffer) (pos w : ℕ) :
    List (ℕ × ℕ) → AAState → Option AAState
  | [], st => some st
  | (x, y) :: rest, st =>
    let delta := colorDelta img img pos ((y * w + x) * 4) true
    if delta = 0 then
      if st.zeroes + 1 > 2 then none
      else aaScan img pos w rest { st with zeroes := st.zeroes + 1 }
    else if delta < st.dmin then
      aaScan img pos w rest { st with dmin := delta, minX := x, minY := y }
    else if delta > st.dmax then
      aaScan img pos w rest { st with dmax := delta, maxX := x, maxY := y }
    else
      aaScan img pos w rest st

/-- pixelmatch `antialiased(img, x1, y1, width, height, img2)`. -/
def antialiased (img : Buffer) (x1 y1 w h : ℕ) (img2 : Buffer) : Bool :=
  let x0 := x1 - 1
  let y0 := y1 - 1
  let x2 := min (x1 + 1) (w - 1)
  let y2 := min (y1 + 1) (h - 1)
  let pos := (y1 * w + x1) * 4
  let initSt : AAState :=
    ⟨if x1 = x0 ∨ x1 = x2 ∨ y1 = y0 ∨ y1 = y2 then 1 else 0, 0, 0, 0, 0, 0, 0⟩
  match aaScan img pos w (neighbors x0 x2 y0 y2 x1 y1) initSt with
  | none => false
  | some st =>
    if st.dmin = 0 ∨ st.dmax = 0 then false
    else
      (hasManySiblings img st.minX st.minY w h &&
        hasManySiblings img2 st.minX st.minY w h) ||
      (hasManySiblings img st.maxX st.maxY w h &&
        hasManySiblings img2 st.maxX st.maxY w h)

/-- pixelmatch maximum acceptable squared colour distance for threshold `t`:
`35215 * t * t`. -/
def maxDeltaOf (t : ℚ) : ℚ := 35215 * t * t

/-- Whether pixelmatch counts the pixel `(x, y)` as a difference: colour delta
above the threshold and not detected as anti-aliasing (the `includeAA` option
is left at its default `false` by the caller in this repository). -/
def flaggedPixel (img1 img2 : Buffer) (w h x y : ℕ) (t : ℚ) : Bool :=
  if |colorDelta img1 img2 ((y * w + x) * 4) ((y * w + x) * 4) false| > maxDeltaOf t then
    !(antialiased img1 x y w h img2 || antialiased img2 x y w h img1)
  else false

/-- The count pixelmatch returns on the slow path: flagged pixels over the
`y`-outer `x`-inner scan. -/
def countDiff (img1 img2 : Buffer) (w h : ℕ) (t : ℚ) : ℕ :=
  ((List.range h).map fun y =>
    (List.range w).countP fun x => flaggedPixel img1 img2 w h x y t).sum

/-- JS truncation toward zero of a rational. -/
def jsTrunc (q : ℚ) : ℤ := if q < 0 then -⌊-q⌋ else ⌊q⌋

/-- Storing a JS number into a `Uint8Array` slot: truncate, then modulo 256. -/
def toUint8 (q : ℚ) : ℕ := (Int.emod (jsTrunc q) 256).toNat

/-- pixelmatch `drawGrayPixel` with the default `alpha = 0.1`: the source
pixel blended to a faint grayscale, RGBA bytes. -/
def grayPixel (img : Buffer) (i : ℕ) : Buffer :=
  let r : ℚ := img.getD i 0
  let g : ℚ := img.getD (i + 1) 0
  let b : ℚ := img.getD (i + 2) 0
  let a : ℚ := img.getD (i + 3) 0
  let val := blend (rgb2y r g b) (0.1 * a / 255)
  [toUint8 val, toUint8 val, toUint8 val, 255]

/-- The four output bytes pixelmatch writes for pixel `(x, y)`: yellow for
anti-aliasing, red (`diffColor`, since `diffColorAlt` is unset) for a counted
difference, gray for similar pixels. -/
def maskPixel (img1 img2 : Buffer) (w h x y : ℕ) (t : ℚ) : Buffer :=
  let pos := (y * w + x) * 4
  if |colorDelta img1 img2 pos pos false| > maxDeltaOf t then
    if antialiased img1 x y w h img2 || antialiased img2 x y w h img1 then
      [255, 255, 0, 255]
    else [255, 0, 0, 255]
  else grayPixel img1 pos

/-- The diff buffer pixelmatch fills on the slow path. -/
def diffMask (img1 img2 : Buffer) (w h : ℕ) (t : ℚ) : Buffer :=
  ((List.range h).map fun y =>
    ((List.range w).map fun x => maskPixel img1 img2 w h x y t).flatten).flatten

/-- The diff buffer pixelmatch fills on the identical fast path: every pixel
drawn gray. -/
def identicalMask (img1 : Buffer) (w h : ℕ) : Buffer :=
  ((List.range (w * h)).map fun i => grayPixel img1 (4 * i)).flatten

/-- Model of `pixelmatch(img1, img2, output, width, height, { threshold: t })` where
`output` is a fresh `Buffer.alloc(width * height * 4)` (as in
src/unnamed/part_000 lines 72-82): returns the count of differing pixels and
the filled output buffer, or throws on mismatched buffer sizes.  The first
error also covers the output-buffer length check, exactly as in the source. -/
def pixelmatch (img1 img2 : Buffer) (w h : ℕ) (t : ℚ) :
    Except String (ℕ × Buffer) :=
  if img1.length ≠ img2.length ∨ w * h * 4 ≠ img1.length then
    Except.error "Image sizes do not match."
  else if img1.length ≠ w * h * 4 then
    Except.error "Image data size does not match width/height."
  else if img1 = img2 then
    Except.ok (0, identicalMask img1 w h)
  else
    Except.ok (countDiff img1 img2 w h t, diffMask img1 img2 w h t)

/-! Section: The comparison pipeline (`ImageComparison.compareImages`) -/

/-- The value computed inside the `try` block before the optional file write:
the PNG-encoded diff image and the assembled result. -/
structure CoreOut where
  diffImageBuffer : Buffer
  result : ComparisonResult
deriving DecidableEq

/-- The error message prefix added by the `catch` block. -/
def wrapError (e : String) : String := "이미지 비교 실패: " ++ e

/-- The body of `compareImages` (src/unnamed/part_000 lines 41-115) up to but
not including the optional output write: read both files, probe metadata
(missing width/height silently becomes `0` via `|| 0`), resize both images to
the elementwise minimum footprint, run pixelmatch at the request threshold,
PNG-encode and base64-encode the diff buffer, and assemble the result. -/
def compareCore (lib : SharpLib) (fs : FsState) (now : String)
    (params : ImageComparisonParams) : Except String CoreOut :=
  match readFile fs params.image1Path with
  | Except.error e => Except.error e
  | Except.ok image1Buffer =>
  match readFile fs params.image2Path with
  | Except.error e => Except.error e
  | Except.ok image2Buffer =>
  match lib.metadata image1Buffer with
  | Except.error e => Except.error e
  | Except.ok image1Info =>
  match lib.metadata image2Buffer with
  | Except.error e => Except.error e
  | Except.ok image2Info =>
  match lib.resizeRaw image1Buffer
      (min (image1Info.width.getD 0) (image2Info.width.getD 0))
      (min (image1Info.height.getD 0) (image2Info.height.getD 0)) with
  | Except.error e => Except.error e
  | Except.ok image1Resized =>
  match lib.resizeRaw image2Buffer
      (min (image1Info.width.getD 0) (image2Info.width.getD 0))
      (min (image1Info.height.getD 0) (image2Info.height.getD 0)) with
  | Except.error e => Except.error e
  | Except.ok image2Resized =>
  match pixelmatch image1Resized image2Resized
      (min (image1Info.width.getD 0) (image2Info.width.getD 0))
      (min (image1Info.height.getD 0) (image2Info.height.getD 0))
      params.threshold with
  | Except.error e => Except.error e
  | Except.ok pm =>
  match lib.encodePng pm.2
      (min (image1Info.width.getD 0) (image2Info.width.getD 0))
      (min (image1Info.height.getD 0) (image2Info.height.getD 0)) with
  | Except.error e => Except.error e
  | Except.ok diffImageBuffer =>
  Except.ok
    { diffImageBuffer := diffImageBuffer
      result :=
        { diffPixels := pm.1
          totalPixels :=
            min (image1Info.width.getD 0) (image2Info.width.getD 0) *
              min (image1Info.height.getD 0) (image2Info.height.getD 0)
          diffPercentage :=
            ((pm.1 : ℚ) /
              ((min (image1Info.width.getD 0) (image2Info.width.getD 0) *
                min (image1Info.height.getD 0) (image2Info.height.getD 0) : ℕ) : ℚ)) * 100
          diffImageData := lib.toBase64 diffImageBuffer
          metadata :=
            { image1Size := ⟨image1Info.width.getD 0, image1Info.height.getD 0⟩
              image2Size := ⟨image2Info.width.getD 0, image2Info.height.getD 0⟩
              threshold := params.threshold
              comparedAt := now } } }

/-- Model of `ImageComparison.compareImages` (src/unnamed/part_000 lines 38-135):
runs the pipeline, writes the diff image iff `outputPath` was supplied and the
pipeline succeeded, and wraps any thrown error with the `catch` block's
message.  Returns the final filesystem next to the thrown-or-returned value. -/
def compareImages (lib : SharpLib) (fs : FsState) (now : String)
    (params : ImageComparisonParams) : FsState × Except String ComparisonResult :=
  match compareCore lib fs now params with
  | Except.error e => (fs, Except.error (wrapError e))
  | Except.ok out =>
    match params.outputPath with
    | none => (fs, Except.ok out.result)
    | some outPath =>
      match writeFile fs outPath out.diffImageBuffer with
      | Except.error e => (fs, Except.error (wrapError e))
      | Except.ok fs2 => (fs2, Except.ok out.result)

/-! Section: Narrative report (`generateDifferenceDescription`) -/

/-- JS number formatting (`toLocaleString`, `toFixed`) as an abstract
collaborator; the classification logic does not depend on it. -/
structure NumberFormat where
  toLocaleString : ℕ → String
  toFixed1 : ℚ → String
  toFixed2 : ℚ → String

/-- The severity line chosen by `generateDifferenceDescription`
(src/unnamed/part_000 lines 159-167): breakpoints at 1, 5 and 20 percent. -/
def severityLine (diffPercentage : ℚ) : String :=
  if diffPercentage < 1 then
    "✅ **거의 동일**: 두 이미지는 거의 동일합니다 (차이점 < 1%)\n"
  else if diffPercentage < 5 then
    "⚠️ **약간의 차이**: 두 이미지에 약간의 차이가 있습니다 (1-5%)\n"
  else if diffPercentage < 20 then
    "🔶 **상당한 차이**: 두 이미지에 상당한 차이가 있습니다 (5-20%)\n"
  else
    "❌ **큰 차이**: 두 이미지에 큰 차이가 있습니다 (> 20%)\n"

/-- The likely-cause list chosen by `generateDifferenceDescription`
(src/unnamed/part_000 lines 171-183): breakpoints at 1 and 10 percent. -/
def causeLines (diffPercentage : ℚ) : String :=
  if diffPercentage < 1 then
    "- 미세한 렌더링 차이\n- 압축 아티팩트\n- 색상 프로파일 차이\n"
  else if diffPercentage < 10 then
    "- UI 요소 위치 차이\n- 폰트 렌더링 차이\n- 색상 및 투명도 차이\n"
  else
    "- 레이아웃 구조 차이\n- 콘텐츠 변경\n- 새로운 UI 요소 추가/제거\n"

/-- Model of `ImageComparison.generateDifferenceDescription`
(src/unnamed/part_000 lines 138-186). -/
def generateDifferenceDescription (fmt : NumberFormat)
    (result : ComparisonResult) : String :=
  "## 이미지 비교 결과\n\n" ++
  "### 📊 기본 통계\n" ++
  "- **총 픽셀 수**: " ++ fmt.toLocaleString result.totalPixels ++ "개\n" ++
  "- **차이점 픽셀 수**: " ++ fmt.toLocaleString result.diffPixels ++ "개\n" ++
  "- **차이점 비율**: " ++ fmt.toFixed2 result.diffPercentage ++ "%\n" ++
  "- **임계값**: " ++ fmt.toFixed1 (result.metadata.threshold * 100) ++ "%\n\n" ++
  "### 📐 이미지 크기\n" ++
  "- **이미지 1**: " ++ toString result.metadata.image1Size.width ++ " × " ++
    toString result.metadata.image1Size.height ++ "\n" ++
  "- **이미지 2**: " ++ toString result.metadata.image2Size.width ++ " × " ++
    toString result.metadata.image2Size.height ++ "\n\n" ++
  "### 🔍 차이점 분석\n" ++
  severityLine result.diffPercentage ++
  "\n### 🎯 차이점 유형 추정\n" ++
  causeLines result.diffPercentage

/-! Section: Concrete collaborators and inputs used for evaluation -/

/-- A concrete sharp model used to evaluate the pipeline: every buffer decodes
as a 1×1 image, resizing returns the buffer itself, PNG encoding returns an
empty container. -/
def demoLib : SharpLib :=
  { metadata := fun _ => Except.ok ⟨some 1, some 1⟩
    resizeRaw := fun b _ _ => Except.ok b
    encodePng := fun _ _ _ => Except.ok []
    toBase64 := fun _ => "" }

/-- A sharp model whose decoded metadata has no width, exercising the `|| 0`
fallback of the source. -/
def demoLibNoWidth : SharpLib :=
  { metadata := fun _ => Except.ok ⟨none, some 1⟩
    resizeRaw := fun _ _ _ => Except.ok []
    encodePng := fun _ _ _ => Except.ok []
    toBase64 := fun _ => "" }

/-- A filesystem holding two 1×1 RGBA images that differ in the red channel. -/
def demoFs : FsState :=
  ⟨[("a.png", [10, 20, 30, 255]), ("b.png", [200, 20, 30, 255])], []⟩

/-- The result `compareImages` produces on `demoFs`/`demoLib` inputs with the
given threshold, difference count and percentage. -/
def demoResult (t : ℚ) (n : ℕ) (pct : ℚ) : ComparisonResult :=
  { diffPixels := n
    totalPixels := 1
    diffPercentage := pct
    diffImageData := ""
    metadata :=
      { image1Size := ⟨1, 1⟩
        image2Size := ⟨1, 1⟩
        threshold := t
        comparedAt := "T" } }

instance instDecEqExcept {ε α : Type} [DecidableEq ε] [DecidableEq α] :
    DecidableEq (Except ε α) := fun x y =>
  match x, y with
  | Except.error a, Except.error b => decidable_of_iff (a = b) (by simp)
  | Except.error _, Except.ok _ => isFalse (by simp)
  | Except.ok _, Except.error _ => isFalse (by simp)
  | Except.ok a, Except.ok b => decidable_of_iff (a = b) (by simp)

/-! Section: General counting lemmas -/

theorem sum_map_le_sum_map {α : Type} {l : List α} {f g : α → ℕ}
    (h : ∀ x ∈ l, f x ≤ g x) : (l.map f).sum ≤ (l.map g).sum := by
  induction l with
  | nil => simp
  | cons a t ih =>
    simp only [List.map_cons, List.sum_cons]
    exact Nat.add_le_add (h a (List.mem_cons_self a t))
      (ih fun x hx => h x (List.mem_cons_of_mem a hx))

theorem countP_le_countP {α : Type} {p q : α → Bool} {l : List α}
    (h : ∀ x ∈ l, p x = true → q x = true) : l.countP p ≤ l.countP q := by
  induction l with
  | nil => simp
  | cons a t ih =>
    have ht := ih fun x hx hp => h x (List.mem_cons_of_mem a hx) hp
    simp only [List.countP_cons]
    by_cases hp : p a = true
    · have hq := h a (List.mem_cons_self a t) hp
      simp only [hp, hq, if_true]
      omega
    · calc t.countP p + (if p a then 1 else 0) = t.countP p := by simp [hp]
        _ ≤ t.countP q := ht
        _ ≤ t.countP q + (if q a then 1 else 0) := Nat.le_add_right _ _

theorem sum_map_const {α : Type} (l : List α) (w : ℕ) :
    (l.map fun _ => w).sum = l.length * w := by
  induction l with
  | nil => simp
  | cons a t ih =>
    simp only [List.map_cons, List.sum_cons, List.length_cons, ih]
    ring

/-! Section: Properties of the embedded pixelmatch algorithm -/

theorem flaggedPixel_anti {img1 img2 : Buffer} {w h x y : ℕ} {t1 t2 : ℚ}
    (h0 : 0 ≤ t1) (h12 : t1 ≤ t2)
    (hf : flaggedPixel img1 img2 w h x y t2 = true) :
    flaggedPixel img1 img2 w h x y t1 = true := by
  unfold flaggedPixel at hf ⊢
  by_cases hgt2 :
      |colorDelta img1 img2 ((y * w + x) * 4) ((y * w + x) * 4) false| > maxDeltaOf t2
  · have hle : maxDeltaOf t1 ≤ maxDeltaOf t2 := by
      unfold maxDeltaOf
      nlinarith [mul_le_mul h12 h12 h0 (h0.trans h12)]
    rw [if_pos (lt_of_le_of_lt hle hgt2)]
    rwa [if_pos hgt2] at hf
  · rw [if_neg hgt2] at hf
    exact absurd hf (by simp)

theorem countDiff_anti (img1 img2 : Buffer) (w h : ℕ) {t1 t2 : ℚ}
    (h0 : 0 ≤ t1) (h12 : t1 ≤ t2) :
    countDiff img1 img2 w h t2 ≤ countDiff img1 img2 w h t1 := by
  unfold countDiff
  refine sum_map_le_sum_map ?_
  intro y _
  refine countP_le_countP ?_
  intro x _ hx
  exact flaggedPixel_anti h0 h12 hx

theorem countDiff_le (img1 img2 : Buffer) (w h : ℕ) (t : ℚ) :
    countDiff img1 img2 w h t ≤ w * h := by
  unfold countDiff
  calc ((List.range h).map fun y =>
        (List.range w).countP fun x => flaggedPixel img1 img2 w h x y t).sum
      ≤ ((List.range h).map fun _ => w).sum := by
        refine sum_map_le_sum_map ?_
        intro y _
        calc (List.range w).countP (fun x => flaggedPixel img1 img2 w h x y t)
            ≤ (List.range w).length := List.countP_le_length _
          _ = w := List.length_range w
    _ = h * w := by rw [sum_map_const, List.length_range]
    _ = w * h := Nat.mul_comm h w

theorem pixelmatch_ok_le {img1 img2 : Buffer} {w h : ℕ} {t : ℚ} {pm : ℕ × Buffer}
    (hp : pixelmatch img1 img2 w h t = Except.ok pm) : pm.1 ≤ w * h := by
  unfold pixelmatch at hp
  by_cases h1 : img1.length ≠ img2.length ∨ w * h * 4 ≠ img1.length
  · rw [if_pos h1] at hp
    exact absurd hp (by simp)
  · rw [if_neg h1] at hp
    by_cases h2 : img1.length ≠ w * h * 4
    · rw [if_pos h2] at hp
      exact absurd hp (by simp)
    · rw [if_neg h2] at hp
      by_cases h3 : img1 = img2
      · rw [if_pos h3] at hp
        rw [← Except.ok.inj hp]
        exact Nat.zero_le _
      · rw [if_neg h3] at hp
        rw [← Except.ok.inj hp]
        exact countDiff_le img1 img2 w h t

theorem pixelmatch_self {img : Buffer} {w h : ℕ} {t : ℚ} {pm : ℕ × Buffer}
    (hp : pixelmatch img img w h t = Except.ok pm) : pm.1 = 0 := by
  unfold pixelmatch at hp
  by_cases h1 : img.length ≠ img.length ∨ w * h * 4 ≠ img.length
  · rw [if_pos h1] at hp
    exact absurd hp (by simp)
  · have h2 : ¬ img.length ≠ w * h * 4 := by
      push_neg at h1 ⊢
      exact h1.2.symm
    rw [if_neg h1, if_neg h2, if_pos rfl] at hp
    rw [← Except.ok.inj hp]

theorem pixelmatch_anti {img1 img2 : Buffer} {w h : ℕ} {t1 t2 : ℚ}
    {pm1 pm2 : ℕ × Buffer}
    (h0 : 0 ≤ t1) (h12 : t1 ≤ t2)
    (hp1 : pixelmatch img1 img2 w h t1 = Except.ok pm1)
    (hp2 : pixelmatch img1 img2 w h t2 = Except.ok pm2) :
    pm2.1 ≤ pm1.1 := by
  unfold pixelmatch at hp1 hp2
  by_cases h1 : img1.length ≠ img2.length ∨ w * h * 4 ≠ img1.length
  · rw [if_pos h1] at hp1
    exact absurd hp1 (by simp)
  · rw [if_neg h1] at hp1 hp2
    by_cases h2 : img1.length ≠ w * h * 4
    · rw [if_pos h2] at hp1
      exact absurd hp1 (by simp)
    · rw [if_neg h2] at hp1 hp2
      by_cases h3 : img1 = img2
      · rw [if_pos h3] at hp1 hp2
        rw [← Except.ok.inj hp1, ← Except.ok.inj hp2]
      · rw [if_neg h3] at hp1 hp2
        rw [← Except.ok.inj hp1, ← Except.ok.inj hp2]
        exact countDiff_anti img1 img2 w h h0 h12

theorem pixelmatch_nil (hh : ℕ) (t : ℚ) :
    pixelmatch ([] : Buffer) [] 0 hh t = Except.ok (0, ([] : Buffer)) := by
  simp [pixelmatch, identicalMask]

/-! Section: Success-shape lemmas for the pipeline -/

theorem compareCore_ok {lib : SharpLib} {fs : FsState} {now : String}
    {params : ImageComparisonParams} {out : CoreOut}
    (h : compareCore lib fs now params = Except.ok out) :
    ∃ b1 b2 m1 m2 r1 r2 pm png,
      readFile fs params.image1Path = Except.ok b1 ∧
      readFile fs params.image2Path = Except.ok b2 ∧
      lib.metadata b1 = Except.ok m1 ∧
      lib.metadata b2 = Except.ok m2 ∧
      lib.resizeRaw b1 (min (m1.width.getD 0) (m2.width.getD 0))
        (min (m1.height.getD 0) (m2.height.getD 0)) = Except.ok r1 ∧
      lib.resizeRaw b2 (min (m1.width.getD 0) (m2.width.getD 0))
        (min (m1.height.getD 0) (m2.height.getD 0)) = Except.ok r2 ∧
      pixelmatch r1 r2 (min (m1.width.getD 0) (m2.width.getD 0))
        (min (m1.height.getD 0) (m2.height.getD 0)) params.threshold = Except.ok pm ∧
      lib.encodePng pm.2 (min (m1.width.getD 0) (m2.width.getD 0))
        (min (m1.height.getD 0) (m2.height.getD 0)) = Except.ok png ∧
      out = { diffImageBuffer := png
              result :=
                { diffPixels := pm.1
                  totalPixels := min (m1.width.getD 0) (m2.width.getD 0) *
                    min (m1.height.getD 0) (m2.height.getD 0)
                  diffPercentage := ((pm.1 : ℚ) /
                    ((min (m1.width.getD 0) (m2.width.getD 0) *
                      min (m1.height.getD 0) (m2.height.getD 0) : ℕ) : ℚ)) * 100
                  diffImageData := lib.toBase64 png
                  metadata :=
                    { image1Size := ⟨m1.width.getD 0, m1.height.getD 0⟩
                      image2Size := ⟨m2.width.getD 0, m2.height.getD 0⟩
                      threshold := params.threshold
                      comparedAt := now } } } := by
  unfold compareCore at h
  split at h
  · simp at h
  rename_i b1 hb1
  split at h
  · simp at h
  rename_i b2 hb2
  split at h
  · simp at h
  rename_i m1 hm1
  split at h
  · simp at h
  rename_i m2 hm2
  split at h
  · simp at h
  rename_i r1 hr1
  split at h
  · simp at h
  rename_i r2 hr2
  split at h
  · simp at h
  rename_i pm hpm
  split at h
  · simp at h
  rename_i png hpng
  exact ⟨b1, b2, m1, m2, r1, r2, pm, png, hb1, hb2, hm1, hm2, hr1, hr2, hpm, hpng,
    (Except.ok.inj h).symm⟩

theorem compareImages_ok {lib : SharpLib} {fs : FsState} {now : String}
    {params : ImageComparisonParams} {res : ComparisonResult}
    (h : (compareImages lib fs now params).2 = Except.ok res) :
    ∃ out, compareCore lib fs now params = Except.ok out ∧ res = out.result := by
  unfold compareImages at h
  split at h
  · simp at h
  rename_i out hout
  split at h
  · exact ⟨out, hout, by simpa using h.symm⟩
  rename_i outPath hpath
  split at h
  · simp at h
  rename_i fs2 hw
  exact ⟨out, hout, by simpa using h.symm⟩

/-! Section: Claim theorems -/

/-- C1 counterexample: at `diffPercentage = 15` the severity classification is
the substantial narrative (breakpoint bucket `[5, 20)`), but the cause list is
the major bucket (structural layout / content / added-removed elements), not
the element positioning / font rendering / colour-opacity bucket the claim
requires for all of `[5, 20)`. -/
theorem c1_counterexample :
    severityLine 15 = "🔶 **상당한 차이**: 두 이미지에 상당한 차이가 있습니다 (5-20%)\n" ∧
    causeLines 15 = "- 레이아웃 구조 차이\n- 콘텐츠 변경\n- 새로운 UI 요소 추가/제거\n" ∧
    causeLines 15 ≠ "- UI 요소 위치 차이\n- 폰트 렌더링 차이\n- 색상 및 투명도 차이\n" :=
  ⟨by with_unfolding_all decide, by with_unfolding_all decide, by with_unfolding_all decide⟩

/-- C1 (amended): the cause list of `generateDifferenceDescription` is chosen
by breakpoints at 1.0 and 10.0, not by the severity breakpoints: below 1 the
rendering-noise bucket, on `[1, 10)` the positioning/font/colour bucket, and
from 10 on the major bucket.  In particular on `[5, 10)` the causes are the
positioning/font/colour bucket while on `[10, 20)` — still classified as a
substantial difference — they are already the major bucket. -/
theorem c1_cause_buckets (dp : ℚ) :
    (dp < 1 →
      causeLines dp = "- 미세한 렌더링 차이\n- 압축 아티팩트\n- 색상 프로파일 차이\n") ∧
    (1 ≤ dp → dp < 10 →
      causeLines dp = "- UI 요소 위치 차이\n- 폰트 렌더링 차이\n- 색상 및 투명도 차이\n") ∧
    (10 ≤ dp →
      causeLines dp = "- 레이아웃 구조 차이\n- 콘텐츠 변경\n- 새로운 UI 요소 추가/제거\n") ∧
    (5 ≤ dp → dp < 10 →
      severityLine dp = "🔶 **상당한 차이**: 두 이미지에 상당한 차이가 있습니다 (5-20%)\n" ∧
      causeLines dp = "- UI 요소 위치 차이\n- 폰트 렌더링 차이\n- 색상 및 투명도 차이\n") ∧
    (10 ≤ dp → dp < 20 →
      severityLine dp = "🔶 **상당한 차이**: 두 이미지에 상당한 차이가 있습니다 (5-20%)\n" ∧
      causeLines dp = "- 레이아웃 구조 차이\n- 콘텐츠 변경\n- 새로운 UI 요소 추가/제거\n") := by
  refine ⟨?_, ?_, ?_, ?_, ?_⟩
  · intro h1
    unfold causeLines
    rw [if_pos h1]
  · intro h1 h2
    unfold causeLines
    rw [if_neg (not_lt.mpr h1), if_pos h2]
  · intro h1
    unfold causeLines
    rw [if_neg (not_lt.mpr (by linarith)), if_neg (not_lt.mpr h1)]
  · intro h1 h2
    constructor
    · unfold severityLine
      rw [if_neg (not_lt.mpr (by linarith)), if_neg (not_lt.mpr h1), if_pos (by linarith)]
    · unfold causeLines
      rw [if_neg (not_lt.mpr (by linarith)), if_pos h2]
  · intro h1 h2
    constructor
    · unfold severityLine
      rw [if_neg (not_lt.mpr (by linarith)), if_neg (not_lt.mpr (by linarith)), if_pos h2]
    · unfold causeLines
      rw [if_neg (not_lt.mpr (by linarith)), if_neg (not_lt.mpr h1)]

/-- C1 witness: the amended theorem applied at `diffPercentage = 15`. -/
theorem c1_cause_buckets_witness :
    (10 : ℚ) ≤ 15 ∧ (15 : ℚ) < 20 ∧
    severityLine 15 = "🔶 **상당한 차이**: 두 이미지에 상당한 차이가 있습니다 (5-20%)\n" ∧
    causeLines 15 = "- 레이아웃 구조 차이\n- 콘텐츠 변경\n- 새로운 UI 요소 추가/제거\n" :=
  ⟨by norm_num, by norm_num,
    ((c1_cause_buckets 15).2.2.2.2 (by norm_num) (by norm_num)).1,
    ((c1_cause_buckets 15).2.2.2.2 (by norm_num) (by norm_num)).2⟩

/-- C2: requests are validated by the zod schema before use — a threshold
outside `[0, 1]` is rejected by `parseParams`, an omitted threshold defaults
to `0.1`, and a parsed request's threshold is both recorded in the result
metadata and passed to the pixelmatch step of `compareImages`. -/
theorem c2_request_validation (raw : RawComparisonParams) (lib : SharpLib)
    (fs : FsState) (now : String) :
    (∀ t : ℚ, raw.threshold = some t → (t < 0 ∨ 1 < t) →
      ∃ e, parseParams raw = Except.error e) ∧
    (raw.threshold = none →
      parseParams raw =
        Except.ok ⟨raw.image1Path, raw.image2Path, (0.1 : ℚ), raw.outputPath⟩) ∧
    (∀ q res, parseParams raw = Except.ok q →
      (compareImages lib fs now q).2 = Except.ok res →
      res.metadata.threshold = q.threshold ∧
      ∃ b1 b2 m1 m2 r1 r2 mask,
        readFile fs q.image1Path = Except.ok b1 ∧
        readFile fs q.image2Path = Except.ok b2 ∧
        lib.metadata b1 = Except.ok m1 ∧
        lib.metadata b2 = Except.ok m2 ∧
        lib.resizeRaw b1 (min (m1.width.getD 0) (m2.width.getD 0))
          (min (m1.height.getD 0) (m2.height.getD 0)) = Except.ok r1 ∧
        lib.resizeRaw b2 (min (m1.width.getD 0) (m2.width.getD 0))
          (min (m1.height.getD 0) (m2.height.getD 0)) = Except.ok r2 ∧
        pixelmatch r1 r2 (min (m1.width.getD 0) (m2.width.getD 0))
          (min (m1.height.getD 0) (m2.height.getD 0)) q.threshold =
          Except.ok (res.diffPixels, mask)) := by
  refine ⟨?_, ?_, ?_⟩
  · intro t hsome hbad
    unfold parseParams
    rw [hsome]
    dsimp only
    rcases hbad with hlt | hgt
    · exact ⟨_, by rw [if_pos hlt]⟩
    · have hnot : ¬ t < 0 := by linarith
      exact ⟨_, by rw [if_neg hnot, if_pos hgt]⟩
  · intro hnone
    unfold parseParams
    rw [hnone]
  · intro q res hq hok
    obtain ⟨out, hcore, hres⟩ := compareImages_ok hok
    obtain ⟨b1, b2, m1, m2, r1, r2, pm, png, hb1, hb2, hm1, hm2, hr1, hr2, hpm, hpng, hout⟩ :=
      compareCore_ok hcore
    subst hres
    rw [hout]
    exact ⟨rfl, b1, b2, m1, m2, r1, r2, pm.2, hb1, hb2, hm1, hm2, hr1, hr2, hpm⟩

/-- C2 witness: the theorem applied to a request with threshold 2 (rejected),
a request with the threshold omitted (defaults to 0.1), and a parsed default
request run through `compareImages` on concrete collaborators. -/
theorem c2_request_validation_witness :
    (∃ e, parseParams ⟨"a.png", "b.png", some 2, none⟩ = Except.error e) ∧
    parseParams ⟨"a.png", "b.png", none, none⟩ =
      Except.ok ⟨"a.png", "b.png", (0.1 : ℚ), none⟩ ∧
    (demoResult (1 / 10) 1 100).metadata.threshold =
      (⟨"a.png", "b.png", (0.1 : ℚ), none⟩ : ImageComparisonParams).threshold :=
  ⟨(c2_request_validation ⟨"a.png", "b.png", some 2, none⟩ demoLib demoFs "T").1
      2 rfl (Or.inr (by norm_num)),
    (c2_request_validation ⟨"a.png", "b.png", none, none⟩ demoLib demoFs "T").2.1 rfl,
    ((c2_request_validation ⟨"a.png", "b.png", none, none⟩ demoLib demoFs "T").2.2
      ⟨"a.png", "b.png", (0.1 : ℚ), none⟩ (demoResult (1 / 10) 1 100)
      (by with_unfolding_all decide) (by with_unfolding_all decide)).1⟩

/-- C3: the severity narrative of `generateDifferenceDescription` is chosen by
fixed breakpoints on `diffPercentage` — `< 1` negligible, `[1, 5)` minor,
`[5, 20)` substantial, `≥ 20` major — and in particular 0.99 is negligible,
1 and 4.999 are minor, 5 and 19.999 are substantial, and 20 is major. -/
theorem c3_severity_breakpoints (dp : ℚ) :
    (dp < 1 →
      severityLine dp = "✅ **거의 동일**: 두 이미지는 거의 동일합니다 (차이점 < 1%)\n") ∧
    (1 ≤ dp → dp < 5 →
      severityLine dp = "⚠️ **약간의 차이**: 두 이미지에 약간의 차이가 있습니다 (1-5%)\n") ∧
    (5 ≤ dp → dp < 20 →
      severityLine dp = "🔶 **상당한 차이**: 두 이미지에 상당한 차이가 있습니다 (5-20%)\n") ∧
    (20 ≤ dp →
      severityLine dp = "❌ **큰 차이**: 두 이미지에 큰 차이가 있습니다 (> 20%)\n") ∧
    severityLine 0.99 = "✅ **거의 동일**: 두 이미지는 거의 동일합니다 (차이점 < 1%)\n" ∧
    severityLine 1 = "⚠️ **약간의 차이**: 두 이미지에 약간의 차이가 있습니다 (1-5%)\n" ∧
    severityLine 4.999 = "⚠️ **약간의 차이**: 두 이미지에 약간의 차이가 있습니다 (1-5%)\n" ∧
    severityLine 5 = "🔶 **상당한 차이**: 두 이미지에 상당한 차이가 있습니다 (5-20%)\n" ∧
    severityLine 19.999 = "🔶 **상당한 차이**: 두 이미지에 상당한 차이가 있습니다 (5-20%)\n" ∧
    severityLine 20 = "❌ **큰 차이**: 두 이미지에 큰 차이가 있습니다 (> 20%)\n" := by
  refine ⟨?_, ?_, ?_, ?_, by with_unfolding_all decide, by with_unfolding_all decide, by with_unfolding_all decide, by with_unfolding_all decide, by with_unfolding_all decide, by with_unfolding_all decide⟩
  · intro h1
    unfold severityLine
    rw [if_pos h1]
  · intro h1 h2
    unfold severityLine
    rw [if_neg (not_lt.mpr h1), if_pos h2]
  · intro h1 h2
    unfold severityLine
    rw [if_neg (not_lt.mpr (by linarith)), if_neg (not_lt.mpr h1), if_pos h2]
  · intro h1
    unfold severityLine
    rw [if_neg (not_lt.mpr (by linarith)), if_neg (not_lt.mpr (by linarith)),
      if_neg (not_lt.mpr h1)]

/-- C3 witness: the theorem applied at the minor-bucket boundary `1.0`. -/
theorem c3_severity_breakpoints_witness :
    (1 : ℚ) ≤ 1 ∧ (1 : ℚ) < 5 ∧
    severityLine 1 = "⚠️ **약간의 차이**: 두 이미지에 약간의 차이가 있습니다 (1-5%)\n" :=
  ⟨le_refl 1, by norm_num,
    (c3_severity_breakpoints 1).2.1 (le_refl 1) (by norm_num)⟩

/-- C4: on every successful comparison, `0 ≤ diffPixels ≤ totalPixels` and
`totalPixels` is the product of the elementwise minima of the two decoded
images' dimensions (the engine only downsamples to the common footprint). -/
theorem c4_pixel_invariants {lib : SharpLib} {fs : FsState} {now : String}
    {p : ImageComparisonParams} {res : ComparisonResult} {b1 b2 : Buffer}
    {m1 m2 : SharpMeta} {w1 h1 w2 h2 : ℕ}
    (hb1 : readFile fs p.image1Path = Except.ok b1)
    (hb2 : readFile fs p.image2Path = Except.ok b2)
    (hm1 : lib.metadata b1 = Except.ok m1)
    (hm2 : lib.metadata b2 = Except.ok m2)
    (hw1 : m1.width = some w1) (hh1 : m1.height = some h1)
    (hw2 : m2.width = some w2) (hh2 : m2.height = some h2)
    (h : (compareImages lib fs now p).2 = Except.ok res) :
    0 ≤ res.diffPixels ∧ res.diffPixels ≤ res.totalPixels ∧
      res.totalPixels = min w1 w2 * min h1 h2 := by
  obtain ⟨out, hcore, hres⟩ := compareImages_ok h
  obtain ⟨b1', b2', m1', m2', r1, r2, pm, png, hb1', hb2', hm1', hm2', hr1, hr2, hpm, hpng, hout⟩ :=
    compareCore_ok hcore
  rw [hb1] at hb1'
  obtain rfl := Except.ok.inj hb1'
  rw [hb2] at hb2'
  obtain rfl := Except.ok.inj hb2'
  rw [hm1] at hm1'
  obtain rfl := Except.ok.inj hm1'
  rw [hm2] at hm2'
  obtain rfl := Except.ok.inj hm2'
  subst hres
  rw [hout]
  refine ⟨Nat.zero_le _, pixelmatch_ok_le hpm, ?_⟩
  simp [hw1, hw2, hh1, hh2]

/-- C4 witness: the theorem applied to two concrete 1×1 images. -/
theorem c4_pixel_invariants_witness :
    (compareImages demoLib demoFs "T" ⟨"a.png", "b.png", 1 / 10, none⟩).2 =
      Except.ok (demoResult (1 / 10) 1 100) ∧
    (0 ≤ (demoResult (1 / 10) 1 100).diffPixels ∧
      (demoResult (1 / 10) 1 100).diffPixels ≤ (demoResult (1 / 10) 1 100).totalPixels ∧
      (demoResult (1 / 10) 1 100).totalPixels = min 1 1 * min 1 1) :=
  ⟨by with_unfolding_all decide,
    @c4_pixel_invariants demoLib demoFs "T" ⟨"a.png", "b.png", 1 / 10, none⟩
      (demoResult (1 / 10) 1 100) [10, 20, 30, 255] [200, 20, 30, 255]
      ⟨some 1, some 1⟩ ⟨some 1, some 1⟩ 1 1 1 1
      (by with_unfolding_all decide) (by with_unfolding_all decide) (by with_unfolding_all decide) (by with_unfolding_all decide) rfl rfl rfl rfl (by with_unfolding_all decide)⟩

/-- C5: on every successful comparison, the returned `diffPercentage` is
exactly `(diffPixels / totalPixels) * 100`, computed by exact (non-truncating)
division of the two counts returned in the same result. -/
theorem c5_exact_percentage {lib : SharpLib} {fs : FsState} {now : String}
    {p : ImageComparisonParams} {res : ComparisonResult}
    (h : (compareImages lib fs now p).2 = Except.ok res) :
    res.diffPercentage = ((res.diffPixels : ℚ) / (res.totalPixels : ℚ)) * 100 := by
  obtain ⟨out, hcore, hres⟩ := compareImages_ok h
  obtain ⟨b1, b2, m1, m2, r1, r2, pm, png, hb1, hb2, hm1, hm2, hr1, hr2, hpm, hpng, hout⟩ :=
    compareCore_ok hcore
  subst hres
  rw [hout]

/-- C5 witness: the theorem applied to two concrete 1×1 images. -/
theorem c5_exact_percentage_witness :
    (compareImages demoLib demoFs "T" ⟨"a.png", "b.png", 1 / 10, none⟩).2 =
      Except.ok (demoResult (1 / 10) 1 100) ∧
    (demoResult (1 / 10) 1 100).diffPercentage =
      (((demoResult (1 / 10) 1 100).diffPixels : ℚ) /
        ((demoResult (1 / 10) 1 100).totalPixels : ℚ)) * 100 :=
  ⟨by with_unfolding_all decide,
    @c5_exact_percentage demoLib demoFs "T" ⟨"a.png", "b.png", 1 / 10, none⟩
      (demoResult (1 / 10) 1 100) (by with_unfolding_all decide)⟩

/-- C6: whenever `compareImages` fails — at read, decode, resize, diff,
encode or write stage — the filesystem (in particular the requested output
location) is left completely unchanged; the output file is written only on
full success. -/
theorem c6_no_partial_output {lib : SharpLib} {fs : FsState} {now : String}
    {params : ImageComparisonParams} {e : String}
    (h : (compareImages lib fs now params).2 = Except.error e) :
    (compareImages lib fs now params).1 = fs := by
  unfold compareImages at h ⊢
  cases hc : compareCore lib fs now params with
  | error e2 => rfl
  | ok out =>
    rw [hc] at h
    dsimp only at h ⊢
    cases hp : params.outputPath with
    | none =>
      rw [hp] at h
    | some pth =>
      rw [hp] at h
      dsimp only at h ⊢
      cases hw : writeFile fs pth out.diffImageBuffer with
      | error e2 => rfl
      | ok fs2 =>
        rw [hw] at h
        simp at h

/-- C6 witness: a compare that fails reading its first source leaves the
filesystem unchanged. -/
theorem c6_no_partial_output_witness :
    (compareImages demoLib demoFs "T" ⟨"missing.png", "b.png", 1 / 10, none⟩).2 =
      Except.error "이미지 비교 실패: ENOENT: no such file or directory, open missing.png" ∧
    (compareImages demoLib demoFs "T" ⟨"missing.png", "b.png", 1 / 10, none⟩).1 = demoFs :=
  ⟨by with_unfolding_all decide,
    @c6_no_partial_output demoLib demoFs "T" ⟨"missing.png", "b.png", 1 / 10, none⟩
      "이미지 비교 실패: ENOENT: no such file or directory, open missing.png" (by with_unfolding_all decide)⟩

/-- C7: when the first decoded image's width metadata is missing, the source's
`|| 0` fallback makes the normalized footprint `0 × 0`; `compareImages`
still succeeds (no decode error is raised) with `totalPixels = 0`, and the
percentage is computed by dividing by that zero total (modelled over `ℚ`). -/
theorem c7_zero_footprint {lib : SharpLib} {fs : FsState} {now : String}
    {p : ImageComparisonParams} {b1 b2 : Buffer} {m1 m2 : SharpMeta} {png : Buffer}
    (hout : p.outputPath = none)
    (hb1 : readFile fs p.image1Path = Except.ok b1)
    (hb2 : readFile fs p.image2Path = Except.ok b2)
    (hm1 : lib.metadata b1 = Except.ok m1)
    (hm2 : lib.metadata b2 = Except.ok m2)
    (hmiss : m1.width = none)
    (hr1 : lib.resizeRaw b1 0 (min (m1.height.getD 0) (m2.height.getD 0)) =
      Except.ok ([] : Buffer))
    (hr2 : lib.resizeRaw b2 0 (min (m1.height.getD 0) (m2.height.getD 0)) =
      Except.ok ([] : Buffer))
    (henc : lib.encodePng [] 0 (min (m1.height.getD 0) (m2.height.getD 0)) =
      Except.ok png) :
    ∃ res, (compareImages lib fs now p).2 = Except.ok res ∧ res.totalPixels = 0 ∧
      res.diffPercentage = ((res.diffPixels : ℚ) / (res.totalPixels : ℚ)) * 100 := by
  have hw0 : min (m1.width.getD 0) (m2.width.getD 0) = 0 := by
    rw [hmiss]
    simp
  have hcore : compareCore lib fs now p = Except.ok
      { diffImageBuffer := png
        result :=
          { diffPixels := 0, totalPixels := 0, diffPercentage := 0
            diffImageData := lib.toBase64 png
            metadata :=
              { image1Size := ⟨0, m1.height.getD 0⟩
                image2Size := ⟨m2.width.getD 0, m2.height.getD 0⟩
                threshold := p.threshold, comparedAt := now } } } := by
    unfold compareCore
    rw [hb1]
    dsimp only
    rw [hb2]
    dsimp only
    rw [hm1]
    dsimp only
    rw [hm2]
    dsimp only
    rw [hw0, hr1]
    dsimp only
    rw [hr2]
    dsimp only
    rw [pixelmatch_nil]
    dsimp only
    rw [henc]
    dsimp only
    simp [hmiss]
  refine ⟨{ diffPixels := 0, totalPixels := 0, diffPercentage := 0
            diffImageData := lib.toBase64 png
            metadata :=
              { image1Size := ⟨0, m1.height.getD 0⟩
                image2Size := ⟨m2.width.getD 0, m2.height.getD 0⟩
                threshold := p.threshold, comparedAt := now } }, ?_, rfl, by norm_num⟩
  unfold compareImages
  rw [hcore]
  dsimp only
  rw [hout]

/-- C7 witness: the theorem applied to a sharp model that reports no width. -/
theorem c7_zero_footprint_witness :
    demoLibNoWidth.metadata [10, 20, 30, 255] = Except.ok ⟨none, some 1⟩ ∧
    ∃ res, (compareImages demoLibNoWidth demoFs "T" ⟨"a.png", "b.png", 1 / 10, none⟩).2 =
        Except.ok res ∧ res.totalPixels = 0 ∧
        res.diffPercentage = ((res.diffPixels : ℚ) / (res.totalPixels : ℚ)) * 100 :=
  ⟨rfl,
    @c7_zero_footprint demoLibNoWidth demoFs "T" ⟨"a.png", "b.png", 1 / 10, none⟩
      [10, 20, 30, 255] [200, 20, 30, 255] ⟨none, some 1⟩ ⟨none, some 1⟩ []
      rfl (by with_unfolding_all decide) (by with_unfolding_all decide) (by with_unfolding_all decide) (by with_unfolding_all decide) rfl (by with_unfolding_all decide) (by with_unfolding_all decide)
      (by with_unfolding_all decide)⟩

/-- C8: for a fixed pair of input images and thresholds `t1 ≤ t2` in `[0, 1]`,
the `diffPixels` count returned at threshold `t2` is at most the count
returned at `t1`: raising the threshold never increases flagged pixels. -/
theorem c8_threshold_monotone {lib : SharpLib} {fs : FsState} {now : String}
    {p1 p2 : ImageComparisonParams} {r1 r2 : ComparisonResult}
    (hsame1 : p1.image1Path = p2.image1Path)
    (hsame2 : p1.image2Path = p2.image2Path)
    (ht0 : 0 ≤ p1.threshold) (ht12 : p1.threshold ≤ p2.threshold)
    (_ht1 : p2.threshold ≤ 1)
    (h1 : (compareImages lib fs now p1).2 = Except.ok r1)
    (h2 : (compareImages lib fs now p2).2 = Except.ok r2) :
    r2.diffPixels ≤ r1.diffPixels := by
  obtain ⟨outA, hcA, hresA⟩ := compareImages_ok h1
  obtain ⟨outB, hcB, hresB⟩ := compareImages_ok h2
  obtain ⟨a1, a2, mA1, mA2, rA1, rA2, pmA, pngA, ha1, ha2, hmA1, hmA2, hrA1, hrA2, hpmA, hpngA, houtA⟩ :=
    compareCore_ok hcA
  obtain ⟨d1, d2, mB1, mB2, rB1, rB2, pmB, pngB, hd1, hd2, hmB1, hmB2, hrB1, hrB2, hpmB, hpngB, houtB⟩ :=
    compareCore_ok hcB
  rw [hsame1] at ha1
  rw [hsame2] at ha2
  rw [ha1] at hd1
  obtain rfl := Except.ok.inj hd1
  rw [ha2] at hd2
  obtain rfl := Except.ok.inj hd2
  rw [hmA1] at hmB1
  obtain rfl := Except.ok.inj hmB1
  rw [hmA2] at hmB2
  obtain rfl := Except.ok.inj hmB2
  rw [hrA1] at hrB1
  obtain rfl := Except.ok.inj hrB1
  rw [hrA2] at hrB2
  obtain rfl := Except.ok.inj hrB2
  subst hresA
  subst hresB
  rw [houtA, houtB]
  exact pixelmatch_anti ht0 ht12 hpmA hpmB

/-- C8 witness: the theorem applied to the concrete differing 1×1 images with
thresholds 0 and 1 (1 flagged pixel at 0, none at 1). -/
theorem c8_threshold_monotone_witness :
    (compareImages demoLib demoFs "T" ⟨"a.png", "b.png", 0, none⟩).2 =
      Except.ok (demoResult 0 1 100) ∧
    (compareImages demoLib demoFs "T" ⟨"a.png", "b.png", 1, none⟩).2 =
      Except.ok (demoResult 1 0 0) ∧
    (demoResult 1 0 0).diffPixels ≤ (demoResult 0 1 100).diffPixels :=
  ⟨by with_unfolding_all decide, by with_unfolding_all decide,
    @c8_threshold_monotone demoLib demoFs "T" ⟨"a.png", "b.png", 0, none⟩
      ⟨"a.png", "b.png", 1, none⟩ (demoResult 0 1 100) (demoResult 1 0 0)
      rfl rfl (by norm_num) (by norm_num) (by norm_num) (by with_unfolding_all decide) (by with_unfolding_all decide)⟩

/-- C9: comparing an image against itself (both sources the same path), for
any threshold in `[0, 1]` and a positive footprint, yields `diffPixels = 0`
and `diffPercentage = 0` exactly. -/
theorem c9_self_comparison {lib : SharpLib} {fs : FsState} {now : String}
    {p : ImageComparisonParams} {res : ComparisonResult}
    (hpath : p.image1Path = p.image2Path)
    (_ht0 : 0 ≤ p.threshold) (_ht1 : p.threshold ≤ 1)
    (_hpos : 0 < res.totalPixels)
    (h : (compareImages lib fs now p).2 = Except.ok res) :
    res.diffPixels = 0 ∧ res.diffPercentage = 0 := by
  obtain ⟨out, hcore, hres⟩ := compareImages_ok h
  obtain ⟨b1, b2, m1, m2, r1, r2, pm, png, hb1, hb2, hm1, hm2, hr1, hr2, hpm, hpng, hout⟩ :=
    compareCore_ok hcore
  rw [hpath] at hb1
  rw [hb1] at hb2
  obtain rfl := Except.ok.inj hb2
  rw [hm1] at hm2
  obtain rfl := Except.ok.inj hm2
  rw [hr1] at hr2
  obtain rfl := Except.ok.inj hr2
  have hzero : pm.1 = 0 := pixelmatch_self hpm
  subst hres
  rw [hout]
  constructor
  · exact hzero
  · simp [hzero]

/-- C9 witness: the theorem applied to a self-comparison of the concrete 1×1
image at threshold 1/2. -/
theorem c9_self_comparison_witness :
    (compareImages demoLib demoFs "T" ⟨"a.png", "a.png", 1 / 2, none⟩).2 =
      Except.ok (demoResult (1 / 2) 0 0) ∧
    (demoResult (1 / 2) 0 0).diffPixels = 0 ∧
    (demoResult (1 / 2) 0 0).diffPercentage = 0 :=
  ⟨by with_unfolding_all decide,
    @c9_self_comparison demoLib demoFs "T" ⟨"a.png", "a.png", 1 / 2, none⟩
      (demoResult (1 / 2) 0 0) rfl (by norm_num) (by norm_num) (by with_unfolding_all decide)
      (by with_unfolding_all decide)⟩

/-- C10: when `outputPath` is omitted, `compareImages` performs no file write:
the filesystem component of the outcome is the input filesystem. -/
theorem c10_no_write_when_omitted {lib : SharpLib} {fs : FsState} {now : String}
    {params : ImageComparisonParams}
    (hout : params.outputPath = none) :
    (compareImages lib fs now params).1 = fs := by
  unfold compareImages
  cases hc : compareCore lib fs now params with
  | error e => rfl
  | ok out =>
    rw [hout]

/-- C10 witness: the theorem applied to a concrete successful compare without
an output path. -/
theorem c10_no_write_when_omitted_witness :
    (⟨"a.png", "b.png", 1 / 10, none⟩ : ImageComparisonParams).outputPath = none ∧
    (compareImages demoLib demoFs "T" ⟨"a.png", "b.png", 1 / 10, none⟩).1 = demoFs :=
  ⟨rfl, @c10_no_write_when_omitted demoLib demoFs "T"
    ⟨"a.png", "b.png", 1 / 10, none⟩ rfl⟩

end ImageCompare
